import Mathlib

/-
Verification of the dependency-injection core of the Ellar/Architek web framework:
the `ProviderConfig` binding descriptor (architek/di/service_config.py), the
`ModuleTreeManager` module tree (ellar/di/injector/tree_manager.py) and the
`ExecutionContextFactory` (ellar/core/context/factory.py), embedded shallowly.

Python values are modelled just finely enough to capture truthiness, which the
source code uses pervasively (`if use_value and use_class:`, `if not
scoped_request_args:`, `parent_module or data.parent`).
-/

namespace Ellar

/-- A Python value, with enough structure to model Python truthiness.
`None` is modelled as `Option.none` at use sites, so every `PyVal` is non-null. -/
inductive PyVal where
  | int (n : Int)
  | str (s : String)
  | bool (b : Bool)
  | obj (id : Nat)
deriving DecidableEq

/-- Python truthiness of a (non-null) value: `0`, `""` and `False` are falsy. -/
def PyVal.truthy : PyVal → Bool
  | .int n => n ≠ 0
  | .str s => s ≠ ""
  | .bool b => b
  | .obj _ => true

/-- Truthiness of an optional value: Python `None` is falsy. -/
def truthyOpt (v : Option PyVal) : Bool :=
  v.elim false PyVal.truthy

/-- A DI scope marker (`SingletonScope`, `request_scope`, ...). Scope markers are
class objects or decorator instances in Python, hence always truthy. -/
inductive DIScope where
  | singleton
  | request
  | custom (id : Nat)
deriving DecidableEq

/-- A Python class object: an identity plus the two attributes that
`architek.di.service_config.get_scope` inspects (the `INJECTABLE_ATTRIBUTE`
set by the `@injectable` decorator, and a `__scope__` attribute).
`none` models an absent attribute. A class object is always truthy. -/
structure PyClass where
  id : Nat
  injectableAttr : Option DIScope
  dunderScope : Option DIScope
deriving DecidableEq

/-- `get_scope` from architek/di/service_config.py:
`getattr(func_or_class, INJECTABLE_ATTRIBUTE, getattr(func_or_class, "__scope__", None))`. -/
def get_scope (func_or_class : PyClass) : Option DIScope :=
  match func_or_class.injectableAttr with
  | some s => some s
  | none => func_or_class.dunderScope

/-- The `ImproperConfiguration` error raised by `ProviderConfig.__init__`
(the spec calls it `ConfigurationError`). -/
inductive ConfigurationError where
  | improperConfiguration
deriving DecidableEq

/-- `ProviderConfig` from architek/di/service_config.py: slots
`base_type`, `use_value`, `use_class`. -/
structure ProviderConfig where
  base_type : PyClass
  use_value : Option PyVal
  use_class : Option PyClass
deriving DecidableEq

/-- `ProviderConfig.__init__`: raises `ImproperConfiguration` when
`use_value and use_class` is truthy (Python truthiness: a non-null class is
always truthy, a value is truthy per `PyVal.truthy`), else stores the fields. -/
def ProviderConfig.init (base_type : PyClass) (use_value : Option PyVal)
    (use_class : Option PyClass) : Except ConfigurationError ProviderConfig :=
  if truthyOpt use_value && use_class.isSome then
    Except.error ConfigurationError.improperConfiguration
  else
    Except.ok ⟨base_type, use_value, use_class⟩

/-- Modelled from the spec: a binding record of the DI `Container`
(`architek/di/injector.py` is not in the repository slice) —
`{concrete_type, scope, cached_singleton_instance}`. A class binding carries
`concrete_class`; a value binding carries its `cached_value`. -/
structure Binding where
  concrete_class : Option PyClass
  cached_value : Option PyVal
  scope : DIScope
deriving DecidableEq

/-- Modelled from the spec: the DI `Container`, a process-wide registry mapping
abstract type → binding record (`architek/di/injector.py` is not in the
repository slice). Keyed by class identity, insertion-ordered like a dict. -/
structure Container where
  bindings : List (Nat × Binding)
deriving DecidableEq

/-- Insert-or-replace in an insertion-ordered association list, preserving the
position of an existing key, as a Python dict assignment does. -/
def upsert (k : Nat) (b : Binding) : List (Nat × Binding) → List (Nat × Binding)
  | [] => [(k, b)]
  | kv :: rest => if kv.1 = k then (k, b) :: rest else kv :: upsert k b rest

/-- Modelled from the spec: `Container.register(base_type, concrete_type, scope)`
writes a binding of `base_type → concrete_type` under `scope`, with no cached
instance (re-registering overwrites, last-write-wins). -/
def Container.register (c : Container) (base_type : PyClass)
    (concrete_type : PyClass) (scope : DIScope) : Container :=
  ⟨upsert base_type.id ⟨some concrete_type, none, scope⟩ c.bindings⟩

/-- Modelled from the spec: `Container.add_singleton(base_type, value)` writes a
singleton binding with the supplied value directly into the Container's cache
(no further construction ever happens for this binding). -/
def Container.add_singleton (c : Container) (base_type : PyClass)
    (value : PyVal) : Container :=
  ⟨upsert base_type.id ⟨none, some value, DIScope.singleton⟩ c.bindings⟩

/-- `ProviderConfig.register(container)` from architek/di/service_config.py:
`scope = get_scope(self.base_type) or SingletonScope`; then
`if self.use_class:` register `base_type → use_class` under
`get_scope(self.use_class) or SingletonScope`;
`elif self.use_value:` (truthiness!) add a singleton with the value;
else register the self-binding under `scope`. -/
def ProviderConfig.register (cfg : ProviderConfig) (container : Container) :
    Container :=
  let scope := (get_scope cfg.base_type).getD DIScope.singleton
  match cfg.use_class with
  | some uc =>
    let scope2 := (get_scope uc).getD DIScope.singleton
    container.register cfg.base_type uc scope2
  | none =>
    match cfg.use_value with
    | some v =>
      if v.truthy then container.add_singleton cfg.base_type v
      else container.register cfg.base_type cfg.base_type scope
    | none => container.register cfg.base_type cfg.base_type scope

/-- The value stored in a tree node: a `ModuleRefBase`/`ModuleSetup` object.
Modelled from the spec: the module ref classes (`ellar/core/modules`) are not in
the repository slice; per the spec a module value carries its module identity,
a readiness flag, its owned provider set and its export list. -/
structure ModValue where
  module : Nat
  is_ready : Bool
  providers : List Nat
  exports : List Nat
deriving DecidableEq

/-- `TreeData` from ellar/di/injector/tree_manager.py: the per-node record
`{value, parent, dependencies}`. -/
structure TreeData where
  value : ModValue
  parent : Option Nat
  dependencies : List Nat
deriving DecidableEq

/-- The errors raised by `ModuleTreeManager` (in the source they are
`ValueError`s with distinct messages, except the multiple-roots case, which is a
bare `Exception`); the spec names them as below. -/
inductive TreeError where
  | duplicateModule
  | missingParent
  | unknownModule
  | multipleRoots
deriving DecidableEq

/-- Whether the raised error is a Python `ValueError` — those are the errors
that `add_or_update`'s `except ValueError` catches. `multipleRoots` is a bare
`Exception` in the source. -/
def TreeError.isValueError : TreeError → Bool
  | .multipleRoots => false
  | _ => true

/-- First-match lookup in an insertion-ordered association list
(Python dict read). -/
def assocLookup {α : Type} (k : Nat) : List (Nat × α) → Option α
  | [] => none
  | kv :: rest => if kv.1 = k then some kv.2 else assocLookup k rest

/-- Replace the entry under an existing key, preserving its position
(Python dict assignment to an existing key). -/
def assocReplace {α : Type} (k : Nat) (v : α) : List (Nat × α) → List (Nat × α)
  | [] => []
  | kv :: rest => if kv.1 = k then (k, v) :: rest else kv :: assocReplace k v rest

/-- Append `m` to the dependency list of the node stored under `pm`
(`self.modules[parent_module].dependencies.append(module_type)`). -/
def appendDep (pm m : Nat) (l : List (Nat × TreeData)) : List (Nat × TreeData) :=
  l.map fun kv =>
    if kv.1 = pm then (kv.1, ⟨kv.2.value, kv.2.parent, kv.2.dependencies ++ [m]⟩)
    else kv

/-- `ModuleTreeManager` state from ellar/di/injector/tree_manager.py: the
insertion-ordered module mapping (a `WeakKeyDictionary`; weak collection is not
modelled), the designated core module and the root module. -/
structure ModuleTreeManager where
  modules : List (Nat × TreeData)
  core_module : Option Nat
  root_module : Option Nat
deriving DecidableEq

/-- `ModuleTreeManager.add_module`. Mutations happen in source order: the node
is stored *before* the parent check, so a failed call leaves the node behind.
Python raises are modelled by returning the state reached so far together with
the error. The source's final `elif` (the multiple-roots `raise`) requires
`parent_module` to be truthy, yet it is only reached when the leading
`if parent_module:` was false — it is unreachable, so no arm below produces
`TreeError.multipleRoots`. -/
def ModuleTreeManager.add_module (mgr : ModuleTreeManager) (module_type : Nat)
    (value : ModValue) (parent_module : Option Nat) :
    ModuleTreeManager × Option TreeError :=
  if (assocLookup module_type mgr.modules).isSome then
    (mgr, some TreeError.duplicateModule)
  else
    let modules1 := mgr.modules ++ [(module_type, ⟨value, parent_module, []⟩)]
    match parent_module with
    | some pm =>
      if (assocLookup pm modules1).isNone then
        (⟨modules1, mgr.core_module, mgr.root_module⟩, some TreeError.missingParent)
      else
        let modules2 := appendDep pm module_type modules1
        let root1 :=
          if mgr.core_module = some pm ∧ mgr.root_module = none then some value.module
          else mgr.root_module
        (⟨modules2, mgr.core_module, root1⟩, none)
    | none =>
      if mgr.root_module = none ∧ mgr.core_module = none then
        (⟨modules1, mgr.core_module, some module_type⟩, none)
      else
        (⟨modules1, mgr.core_module, mgr.root_module⟩, none)

/-- `ModuleTreeManager.__init__(app_core_module)`: records the core module
identity, then adds the core module itself with no parent. -/
def ModuleTreeManager.mk_with_core (core_value : ModValue) :
    ModuleTreeManager × Option TreeError :=
  ModuleTreeManager.add_module ⟨[], some core_value.module, none⟩
    core_value.module core_value none

/-- `ModuleTreeManager.update_module`: replaces the stored value, keeping the
dependency list and — via `parent_module or data.parent` — the old parent when
no new one is supplied. -/
def ModuleTreeManager.update_module (mgr : ModuleTreeManager) (module_type : Nat)
    (value : ModValue) (parent_module : Option Nat) :
    ModuleTreeManager × Option TreeError :=
  match assocLookup module_type mgr.modules with
  | none => (mgr, some TreeError.unknownModule)
  | some data =>
    let nd : TreeData := ⟨value, parent_module.elim data.parent some, data.dependencies⟩
    (⟨assocReplace module_type nd mgr.modules, mgr.core_module, mgr.root_module⟩, none)

/-- `ModuleTreeManager.add_or_update`: attempts `add_module`; on a `ValueError`
falls back to `update_module`. State mutated before the raise persists. -/
def ModuleTreeManager.add_or_update (mgr : ModuleTreeManager) (module_type : Nat)
    (value : ModValue) (parent_module : Option Nat) :
    ModuleTreeManager × Option TreeError :=
  match mgr.add_module module_type value parent_module with
  | (mgr1, none) => (mgr1, none)
  | (mgr1, some e) =>
    if e.isValueError then mgr1.update_module module_type value parent_module
    else (mgr1, some e)

/-- Modelled from the spec: `ModuleRefBase.add_provider` (not in the repository
slice) writes the provider through to the module's live provider set, and to its
export list when `exportFlag` is set. -/
def ModValue.add_provider (v : ModValue) (provider : Nat) (exportFlag : Bool) :
    ModValue :=
  ⟨v.module, v.is_ready, v.providers ++ [provider],
    if exportFlag then v.exports ++ [provider] else v.exports⟩

/-- `ModuleTreeManager.add_provider`: `ValueError` if the module is absent;
writes through via `data.value.add_provider(...)` only when `data.is_ready`;
silently returns otherwise. -/
def ModuleTreeManager.add_provider (mgr : ModuleTreeManager) (module_type : Nat)
    (provider : Nat) (exportFlag : Bool) : ModuleTreeManager × Option TreeError :=
  match assocLookup module_type mgr.modules with
  | none => (mgr, some TreeError.unknownModule)
  | some data =>
    if data.value.is_ready then
      (⟨assocReplace module_type
          ⟨data.value.add_provider provider exportFlag, data.parent, data.dependencies⟩
          mgr.modules,
        mgr.core_module, mgr.root_module⟩, none)
    else (mgr, none)

/-- `ModuleTreeManager.find_module`: a generator yielding every stored node
satisfying the predicate in insertion order, and a single `None` sentinel when
nothing matched (`if not found_any: yield None`). Modelled as the list of
yielded items, with the sentinel as `none`. -/
def ModuleTreeManager.find_module (mgr : ModuleTreeManager)
    (predicate : TreeData → Bool) : List (Option TreeData) :=
  let found := mgr.modules.foldl
    (fun acc kv => if predicate kv.2 then acc ++ [some kv.2] else acc)
    ([] : List (Option TreeData))
  if found.isEmpty then [none] else found

/-- Decidable equality for `Except`, so that concrete runs of the fallible
operations can be settled by `decide`. -/
instance {ε α : Type} [DecidableEq ε] [DecidableEq α] : DecidableEq (Except ε α) :=
  fun a b =>
    match a, b with
    | Except.error e1, Except.error e2 =>
      if h : e1 = e2 then Decidable.isTrue (by rw [h])
      else Decidable.isFalse (by intro hh; injection hh; exact h (by assumption))
    | Except.ok x, Except.ok y =>
      if h : x = y then Decidable.isTrue (by rw [h])
      else Decidable.isFalse (by intro hh; injection hh; exact h (by assumption))
    | Except.error e1, Except.ok y => Decidable.isFalse (fun hh => Except.noConfusion hh)
    | Except.ok x, Except.error e2 => Decidable.isFalse (fun hh => Except.noConfusion hh)

/-- Python exceptions that can escape `search_module_tree`: an
`AttributeError` from accessing `.dependencies` on the `None` sentinel, a
`RecursionError` when the recursion budget runs out, or any exception raised by
the caller-supplied `find_predicate` itself. -/
inductive PyError where
  | attributeError
  | recursionError
  | userError (code : Nat)
deriving DecidableEq

/-- The body of the child loop in `dfs`
(`for child_id in current_node.dependencies:`): propagate a raised exception,
keep an already-found truthy result (`if res: return res` short-circuits the
rest of the loop), skip a missing child (`if child_node:`), and otherwise run
the recursive call `rec` on the child. -/
def dfsChildStep (mgr : ModuleTreeManager)
    (rec : Option TreeData → Except PyError (List (Option TreeData) × Option TreeData))
    (acc : Except PyError (List (Option TreeData) × Option TreeData)) (cid : Nat) :
    Except PyError (List (Option TreeData) × Option TreeData) :=
  match acc with
  | Except.error e => Except.error e
  | Except.ok (trace, some r) => Except.ok (trace, some r)
  | Except.ok (trace, none) =>
    match assocLookup cid mgr.modules with
    | none => Except.ok (trace, none)
    | some child =>
      match rec (some child) with
      | Except.error e => Except.error e
      | Except.ok tr => Except.ok (trace ++ tr.1, tr.2)

/-- The inner `dfs` of `ModuleTreeManager.search_module_tree`. `find_predicate`
is a Python callable: it may raise (`Except.error`), and it is applied to
whatever node `dfs` currently holds — including the `None` sentinel that
`find_module` yields on no match. Evaluation order follows the source: the
predicate is consulted first; only on a falsy answer are the node's
`dependencies` accessed (an `AttributeError` on the sentinel). Returns the list
of nodes the predicate was consulted on (the visit trace) alongside the result;
`fuel` bounds the recursion depth as Python's recursion limit does. -/
def dfs (mgr : ModuleTreeManager) (find_predicate : Option TreeData → Except PyError Bool) :
    Nat → Option TreeData → Except PyError (List (Option TreeData) × Option TreeData)
  | 0, _ => Except.error PyError.recursionError
  | Nat.succ fuel, curr =>
    match find_predicate curr with
    | Except.error e => Except.error e
    | Except.ok true => Except.ok ([curr], curr)
    | Except.ok false =>
      match curr with
      | none => Except.error PyError.attributeError
      | some node =>
        node.dependencies.foldl
          (dfsChildStep mgr (fun c => dfs mgr find_predicate fuel c))
          (Except.ok ([some node], none))

/-- The body of the outer loop of `search_module_tree`
(`for module in self.find_module(filter_item):`): propagate a raised exception,
keep an already-found truthy result (`if result: return result`), and otherwise
run `dfs` on the next start item. -/
def searchStep (mgr : ModuleTreeManager)
    (find_predicate : Option TreeData → Except PyError Bool) (fuel : Nat)
    (acc : Except PyError (List (Option TreeData) × Option TreeData))
    (m : Option TreeData) :
    Except PyError (List (Option TreeData) × Option TreeData) :=
  match acc with
  | Except.error e => Except.error e
  | Except.ok (trace, some r) => Except.ok (trace, some r)
  | Except.ok (trace, none) =>
    match dfs mgr find_predicate fuel m with
    | Except.error e => Except.error e
    | Except.ok tr => Except.ok (trace ++ tr.1, tr.2)

/-- `ModuleTreeManager.search_module_tree(filter_item, find_predicate)`: runs
`dfs` from every item `find_module(filter_item)` yields (including the `None`
sentinel when nothing matches `filter_item`), returning the first truthy `dfs`
result. The accumulated visit trace is threaded through. -/
def ModuleTreeManager.search_module_tree (mgr : ModuleTreeManager)
    (filter_item : TreeData → Bool)
    (find_predicate : Option TreeData → Except PyError Bool) (fuel : Nat) :
    Except PyError (List (Option TreeData) × Option TreeData) :=
  (mgr.find_module filter_item).foldl
    (searchStep mgr find_predicate fuel)
    (Except.ok ([], none))

/-- The `ServiceUnavailable` error raised by `ExecutionContextFactory`
(the spec calls it `ContextUnavailableError`). -/
inductive CtxError where
  | serviceUnavailable
deriving DecidableEq

/-- A route operation, carrying the `endpoint` the factory reads
(`operation.endpoint`). -/
structure RouteOperationBase where
  endpoint : Nat
deriving DecidableEq

/-- Modelled from the spec: `ExecutionContext` (`ellar/core/context/execution.py`
is not in the repository slice) is built from the scope/receive/send triple, the
operation handler and the reflector, exactly the keyword arguments
`ExecutionContextFactory.create_context` passes to it. -/
structure ExecutionContext where
  scope : Nat
  receive : Nat
  send : Nat
  operation_handler : Nat
  reflector : Nat
deriving DecidableEq

/-- `ExecutionContextFactory` from ellar/core/context/factory.py: slot
`reflector`. -/
structure ExecutionContextFactory where
  reflector : Nat
deriving DecidableEq

/-- `ExecutionContextFactory.create_context`: reads
`SCOPED_CONTEXT_VAR.get()` — the request-scoped context variable of the current
concurrency unit, passed here as `scoped_request_args` (`none` for
unset/`None`); raises `ServiceUnavailable` when it is falsy (unset, `None`, or
an empty/falsy published value), else returns the `ExecutionContext` built from
the given scope, receive, send and `operation.endpoint`. -/
def ExecutionContextFactory.create_context (fac : ExecutionContextFactory)
    (operation : RouteOperationBase) (scope receive send : Nat)
    (scoped_request_args : Option PyVal) : Except CtxError ExecutionContext :=
  if !truthyOpt scoped_request_args then
    Except.error CtxError.serviceUnavailable
  else
    Except.ok ⟨scope, receive, send, operation.endpoint, fac.reflector⟩

/-! ### Helper lemmas -/

theorem assocLookup_append_right {α : Type} (k : Nat) (l1 l2 : List (Nat × α))
    (h : assocLookup k l1 = none) : assocLookup k (l1 ++ l2) = assocLookup k l2 := by
  induction l1 with
  | nil => simp
  | cons kv rest ih =>
    by_cases hk : kv.1 = k
    · simp [assocLookup, hk] at h
    · simp only [assocLookup, hk, if_neg hk, List.cons_append] at h ⊢
      exact ih h

theorem assocLookup_append_left {α : Type} (k : Nat) (l1 l2 : List (Nat × α))
    (v : α) (h : assocLookup k l1 = some v) : assocLookup k (l1 ++ l2) = some v := by
  induction l1 with
  | nil => simp [assocLookup] at h
  | cons kv rest ih =>
    by_cases hk : kv.1 = k
    · simp_all [assocLookup]
    · simp only [assocLookup, if_neg hk, List.cons_append] at h ⊢
      exact ih h

theorem assocLookup_singleton {α : Type} (k : Nat) (v : α) :
    assocLookup k [(k, v)] = some v := by
  simp [assocLookup]

theorem assocLookup_appendDep (pm m : Nat) (l : List (Nat × TreeData)) (d : TreeData)
    (h : assocLookup pm l = some d) :
    assocLookup pm (appendDep pm m l) =
      some ⟨d.value, d.parent, d.dependencies ++ [m]⟩ := by
  induction l with
  | nil => simp [assocLookup] at h
  | cons kv rest ih =>
    by_cases hk : kv.1 = pm
    · simp only [assocLookup, if_pos hk, Option.some.injEq] at h
      subst h
      simp [appendDep, assocLookup, hk]
    · simp only [assocLookup, if_neg hk] at h
      simpa [appendDep, assocLookup, hk, h] using ih h

theorem assocLookup_assocReplace_self {α : Type} (k : Nat) (v : α)
    (l : List (Nat × α)) (d : α) (h : assocLookup k l = some d) :
    assocLookup k (assocReplace k v l) = some v := by
  induction l with
  | nil => simp [assocLookup] at h
  | cons kv rest ih =>
    by_cases hk : kv.1 = k
    · simp [assocReplace, assocLookup, hk]
    · simp only [assocLookup, if_neg hk] at h
      simpa [assocReplace, assocLookup, hk] using ih h

theorem find_module_foldl (p : TreeData → Bool) (l : List (Nat × TreeData))
    (acc : List (Option TreeData)) :
    l.foldl (fun acc kv => if p kv.2 then acc ++ [some kv.2] else acc) acc =
      acc ++ ((l.map Prod.snd).filter p).map some := by
  induction l generalizing acc with
  | nil => simp
  | cons kv rest ih =>
    by_cases hp : p kv.2
    · simp [List.foldl_cons, hp, ih, List.filter_cons]
    · simp [List.foldl_cons, hp, ih, List.filter_cons]

/-- `find_module` characterised: the matching stored nodes in insertion order,
or the single sentinel when nothing matches. -/
theorem find_module_eq (mgr : ModuleTreeManager) (p : TreeData → Bool) :
    mgr.find_module p =
      if (mgr.modules.map Prod.snd).filter p = [] then [none]
      else ((mgr.modules.map Prod.snd).filter p).map some := by
  unfold ModuleTreeManager.find_module
  rw [find_module_foldl]
  by_cases h : (mgr.modules.map Prod.snd).filter p = []
  · simp [h]
  · simp [h]

/-- One step of `dfs` on the `None` sentinel: the predicate is consulted first;
a truthy answer returns the sentinel itself (falsy to the caller), a falsy
answer hits the `current_node.dependencies` attribute access on `None`. -/
theorem dfs_none (mgr : ModuleTreeManager)
    (p : Option TreeData → Except PyError Bool) (fuel : Nat) :
    dfs mgr p (fuel + 1) none =
      match p none with
      | Except.error e => Except.error e
      | Except.ok true => Except.ok ([none], none)
      | Except.ok false => Except.error PyError.attributeError := by
  cases h : p none with
  | error e => simp [dfs, h]
  | ok b => cases b <;> simp [dfs, h]

/-- When `find_module` yields only the sentinel, `search_module_tree` is one
`dfs` run on `none`. -/
theorem search_module_tree_sentinel (mgr : ModuleTreeManager)
    (filter_item : TreeData → Bool)
    (p : Option TreeData → Except PyError Bool) (fuel : Nat)
    (h : mgr.find_module filter_item = [none]) :
    mgr.search_module_tree filter_item p fuel =
      match dfs mgr p fuel none with
      | Except.error e => Except.error e
      | Except.ok tr => Except.ok (tr.1, tr.2) := by
  unfold ModuleTreeManager.search_module_tree
  rw [h]
  cases hd : dfs mgr p fuel none with
  | error e => simp [searchStep, hd]
  | ok tr => cases htr : tr.2 <;> simp [searchStep, hd, htr]

/-! ### C2 — `ProviderConfig.__init__` mutual exclusion -/

/-- C2 counterexample: with the non-null but falsy value `0` as `use_value` and
a non-null `use_class`, the constructor does not fail — it succeeds and stores
the fields, so "fails with ConfigurationError for every non-null X, Y" is false. -/
theorem c2_counterexample :
    ProviderConfig.init ⟨0, none, none⟩ (some (PyVal.int 0)) (some ⟨1, none, none⟩)
        = Except.ok ⟨⟨0, none, none⟩, some (PyVal.int 0), some ⟨1, none, none⟩⟩ ∧
      ProviderConfig.init ⟨0, none, none⟩ (some (PyVal.int 0)) (some ⟨1, none, none⟩)
        ≠ Except.error ConfigurationError.improperConfiguration := by
  constructor
  · decide
  · decide

/-- C2 (amended): `ProviderConfig(base_type, use_value, use_class)` fails with
`ConfigurationError` when `use_value` is truthy and `use_class` is supplied (a
non-null class is always truthy); with at most one of them supplied — or with a
falsy `use_value` such as `0` — it succeeds and stores the given fields. -/
theorem c2_provider_config_mutual_exclusion (b : PyClass) (uv : Option PyVal)
    (uc : Option PyClass) :
    (truthyOpt uv = true → uc.isSome = true →
      ProviderConfig.init b uv uc = Except.error ConfigurationError.improperConfiguration) ∧
    (truthyOpt uv = false ∨ uc = none →
      ProviderConfig.init b uv uc = Except.ok ⟨b, uv, uc⟩) := by
  constructor
  · intro h1 h2
    simp [ProviderConfig.init, h1, h2]
  · intro h
    rcases h with h | h
    · simp [ProviderConfig.init, h]
    · simp [ProviderConfig.init, h]

/-- Witness for C2: both parts of the theorem applied at concrete inputs. -/
theorem c2_provider_config_mutual_exclusion_witness :
    ProviderConfig.init ⟨0, none, none⟩ (some (PyVal.int 1)) (some ⟨1, none, none⟩)
        = Except.error ConfigurationError.improperConfiguration ∧
      ProviderConfig.init ⟨0, none, none⟩ (some (PyVal.int 1)) none
        = Except.ok ⟨⟨0, none, none⟩, some (PyVal.int 1), none⟩ :=
  ⟨(c2_provider_config_mutual_exclusion ⟨0, none, none⟩ (some (PyVal.int 1))
      (some ⟨1, none, none⟩)).1 (by decide) (by decide),
   (c2_provider_config_mutual_exclusion ⟨0, none, none⟩ (some (PyVal.int 1))
      none).2 (Or.inr rfl)⟩

/-! ### C5 — `ProviderConfig.register` scope and binding selection -/

/-- C5 counterexample: for a config with the falsy `use_value = 0` (and no
`use_class`), `register` does not add the singleton value binding the claim
requires — the `elif self.use_value:` truthiness test sends it to the
self-binding branch instead. -/
theorem c5_counterexample :
    ProviderConfig.register ⟨⟨0, none, none⟩, some (PyVal.int 0), none⟩ ⟨[]⟩ ≠
      Container.add_singleton ⟨[]⟩ ⟨0, none, none⟩ (PyVal.int 0) := by
  decide

/-- C5 (amended): `register(container)` resolves the effective scope as the
marker on `use_class` when supplied, else on `base_type`, defaulting to
`Singleton`; with `use_class` it registers `base_type → use_class` under that
scope; with a *truthy* `use_value` it adds the singleton binding with the
supplied value; with `use_value` absent or falsy it registers the self-binding
`base_type → base_type` under `base_type`'s effective scope. -/
theorem c5_register_scope_and_binding (cfg : ProviderConfig) (c : Container)
    (uc : PyClass) (v : PyVal) :
    (cfg.use_class = some uc →
      cfg.register c =
        c.register cfg.base_type uc ((get_scope uc).getD DIScope.singleton)) ∧
    (cfg.use_class = none → cfg.use_value = some v → v.truthy = true →
      cfg.register c = c.add_singleton cfg.base_type v) ∧
    (cfg.use_class = none → truthyOpt cfg.use_value = false →
      cfg.register c =
        c.register cfg.base_type cfg.base_type
          ((get_scope cfg.base_type).getD DIScope.singleton)) := by
  refine ⟨?_, ?_, ?_⟩
  · intro h
    simp [ProviderConfig.register, h]
  · intro h1 h2 h3
    simp [ProviderConfig.register, h1, h2, h3]
  · intro h1 h2
    cases hv : cfg.use_value with
    | none => simp [ProviderConfig.register, h1, hv]
    | some v2 =>
      rw [hv] at h2
      simp only [truthyOpt, Option.elim] at h2
      simp [ProviderConfig.register, h1, hv, h2]

/-- Witness for C5: the three register branches exercised at concrete inputs —
a `use_class` binding, a truthy `use_value` singleton, and a bare self-binding. -/
theorem c5_register_scope_and_binding_witness :
    ProviderConfig.register ⟨⟨0, none, none⟩, none, some ⟨1, some DIScope.request, none⟩⟩ ⟨[]⟩
        = Container.register ⟨[]⟩ ⟨0, none, none⟩ ⟨1, some DIScope.request, none⟩ DIScope.request ∧
      ProviderConfig.register ⟨⟨0, none, none⟩, some (PyVal.int 7), none⟩ ⟨[]⟩
        = Container.add_singleton ⟨[]⟩ ⟨0, none, none⟩ (PyVal.int 7) ∧
      ProviderConfig.register ⟨⟨0, none, none⟩, none, none⟩ ⟨[]⟩
        = Container.register ⟨[]⟩ ⟨0, none, none⟩ ⟨0, none, none⟩ DIScope.singleton :=
  ⟨(c5_register_scope_and_binding ⟨⟨0, none, none⟩, none, some ⟨1, some DIScope.request, none⟩⟩
      ⟨[]⟩ ⟨1, some DIScope.request, none⟩ (PyVal.int 7)).1 rfl,
   (c5_register_scope_and_binding ⟨⟨0, none, none⟩, some (PyVal.int 7), none⟩
      ⟨[]⟩ ⟨1, none, none⟩ (PyVal.int 7)).2.1 rfl rfl (by decide),
   (c5_register_scope_and_binding ⟨⟨0, none, none⟩, none, none⟩
      ⟨[]⟩ ⟨1, none, none⟩ (PyVal.int 7)).2.2 rfl (by decide)⟩

/-! ### C1 — single-root enforcement under the core module -/

/-- The designated core module (identity 10) for the C1 scenario. -/
def coreVal : ModValue := ⟨10, true, [], []⟩

/-- The first module attached under the core module (identity 11): it becomes
the tree root. -/
def rootVal : ModValue := ⟨11, true, [], []⟩

/-- A second, distinct module (identity 12) attached under the core module once
the root is already set. -/
def secondVal : ModValue := ⟨12, true, [], []⟩

/-- The tree after `ModuleTreeManager(core)` and `add_module(11, rootVal, parent=10)`. -/
def c1_state1 : ModuleTreeManager × Option TreeError :=
  (ModuleTreeManager.mk_with_core coreVal).1.add_module 11 rootVal (some 10)

/-- The same tree after additionally `add_module(12, secondVal, parent=10)` —
per the spec this call must raise `MultipleRootsError`. -/
def c1_state2 : ModuleTreeManager × Option TreeError :=
  c1_state1.1.add_module 12 secondVal (some 10)

/-- C1, evaluated at the failing input: with a root already set (module 11),
attaching a second distinct module (12) directly under the core module (10)
returns normally — no `MultipleRootsError` is produced (the raising `elif` in
the source requires `parent_module` to be truthy on a path where it is falsy,
so it is unreachable); module 12 is silently appended to the core module's
dependency list and the root is left at 11. -/
theorem c1_multiple_roots_not_raised :
    (ModuleTreeManager.mk_with_core coreVal).2 = none ∧
      c1_state1.2 = none ∧
      c1_state1.1.root_module = some 11 ∧
      c1_state2.2 = none ∧
      c1_state2.2 ≠ some TreeError.multipleRoots ∧
      assocLookup 10 c1_state2.1.modules = some ⟨coreVal, none, [11, 12]⟩ ∧
      c1_state2.1.root_module = some 11 := by
  decide

/-! ### C3 — `add_module` duplicate/missing-parent checks and dependency append -/

/-- C3 counterexample: on an empty tree, `add_module(0, v, parent=0)` is given a
parent that is not yet present in the tree, yet it does not fail with
`MissingParentError` (or at all): the node is stored before the parent check,
so the self-parent is found. -/
theorem c3_counterexample :
    (ModuleTreeManager.add_module ⟨[], none, none⟩ 0 ⟨0, true, [], []⟩ (some 0)).2
        ≠ some TreeError.missingParent ∧
      (ModuleTreeManager.add_module ⟨[], none, none⟩ 0 ⟨0, true, [], []⟩ (some 0)).2
        = none := by
  constructor
  · decide
  · decide

/-- C3 (amended): `add_module(module_id, value, parent)` fails with
`DuplicateModuleError` when `module_id` is already present; fails with
`MissingParentError` when a parent is given that is neither already present nor
the module being added itself (the node is inserted before the parent check, so
a self-parent is found); and when it succeeds with a present parent, it appends
`module_id` to that parent's dependency list. -/
theorem c3_add_module_checks (mgr : ModuleTreeManager) (m : Nat) (v : ModValue)
    (p : Option Nat) (pm : Nat) (d : TreeData) :
    ((assocLookup m mgr.modules).isSome = true →
      mgr.add_module m v p = (mgr, some TreeError.duplicateModule)) ∧
    (assocLookup m mgr.modules = none → pm ≠ m → assocLookup pm mgr.modules = none →
      (mgr.add_module m v (some pm)).2 = some TreeError.missingParent) ∧
    (assocLookup m mgr.modules = none → assocLookup pm mgr.modules = some d →
      (mgr.add_module m v (some pm)).2 = none ∧
      (assocLookup pm (mgr.add_module m v (some pm)).1.modules).map TreeData.dependencies
        = some (d.dependencies ++ [m])) := by
  refine ⟨?_, ?_, ?_⟩
  · intro h
    simp [ModuleTreeManager.add_module, h]
  · intro h1 hne h2
    have hpm1 : assocLookup pm (mgr.modules ++ [(m, ⟨v, some pm, []⟩)]) = none := by
      rw [assocLookup_append_right pm _ _ h2]
      simp [assocLookup, Ne.symm hne]
    simp [ModuleTreeManager.add_module, h1, hpm1]
  · intro h1 h2
    have hpm1 : assocLookup pm (mgr.modules ++ [(m, ⟨v, some pm, []⟩)]) = some d :=
      assocLookup_append_left pm _ _ d h2
    have hdep := assocLookup_appendDep pm m (mgr.modules ++ [(m, ⟨v, some pm, []⟩)]) d hpm1
    simp [ModuleTreeManager.add_module, h1, hpm1, hdep]

/-- Witness for C3: the three branches at concrete inputs — a duplicate add, a
missing parent, and a successful add appending to the parent's dependencies. -/
theorem c3_add_module_checks_witness :
    ModuleTreeManager.add_module ⟨[(5, ⟨⟨5, true, [], []⟩, none, []⟩)], none, some 5⟩
        5 ⟨5, true, [], []⟩ none
      = (⟨[(5, ⟨⟨5, true, [], []⟩, none, []⟩)], none, some 5⟩, some TreeError.duplicateModule) ∧
    (ModuleTreeManager.add_module ⟨[], none, none⟩ 1 ⟨1, true, [], []⟩ (some 2)).2
      = some TreeError.missingParent ∧
    (assocLookup 2 (ModuleTreeManager.add_module
        ⟨[(2, ⟨⟨2, true, [], []⟩, none, []⟩)], none, some 2⟩
        1 ⟨1, true, [], []⟩ (some 2)).1.modules).map TreeData.dependencies
      = some [1] :=
  ⟨(c3_add_module_checks ⟨[(5, ⟨⟨5, true, [], []⟩, none, []⟩)], none, some 5⟩
      5 ⟨5, true, [], []⟩ none 0 ⟨⟨0, true, [], []⟩, none, []⟩).1 (by decide),
   (c3_add_module_checks ⟨[], none, none⟩ 1 ⟨1, true, [], []⟩ none 2
      ⟨⟨0, true, [], []⟩, none, []⟩).2.1 rfl (by decide) rfl,
   ((c3_add_module_checks ⟨[(2, ⟨⟨2, true, [], []⟩, none, []⟩)], none, some 2⟩
      1 ⟨1, true, [], []⟩ none 2 ⟨⟨2, true, [], []⟩, none, []⟩).2.2 rfl (by decide)).2⟩

/-! ### C9 — failed `add_module` is not atomic -/

/-- C9 counterexample: with `m = p = 5`, both absent from the (empty) tree,
`add_module(5, v, parent=5)` does not raise at all — the node is stored before
the parent lookup, which then finds the module itself — and the stored
dependency list is `[5]`, not empty. -/
theorem c9_counterexample :
    (ModuleTreeManager.add_module ⟨[], none, none⟩ 5 ⟨5, true, [], []⟩ (some 5)).2
        = none ∧
      (assocLookup 5 (ModuleTreeManager.add_module ⟨[], none, none⟩ 5 ⟨5, true, [], []⟩
          (some 5)).1.modules).map TreeData.dependencies = some [5] := by
  constructor
  · decide
  · decide

/-- C9 (amended): for `m` not present and a parent `p` not present with
`p ≠ m`, `add_module(m, v, p)` raises `MissingParentError` but is not atomic:
`m` remains stored with parent `p` and an empty dependency list, a subsequent
`update_module(m, ...)` succeeds, and `add_or_update(m, v, p)` completes
without error by updating the node inserted by the failed add. -/
theorem c9_add_module_not_atomic (mgr : ModuleTreeManager) (m pm : Nat)
    (v v2 : ModValue)
    (h1 : assocLookup m mgr.modules = none)
    (h2 : assocLookup pm mgr.modules = none) (h3 : pm ≠ m) :
    (mgr.add_module m v (some pm)).2 = some TreeError.missingParent ∧
    assocLookup m (mgr.add_module m v (some pm)).1.modules = some ⟨v, some pm, []⟩ ∧
    ((mgr.add_module m v (some pm)).1.update_module m v2 (some pm)).2 = none ∧
    (mgr.add_or_update m v (some pm)).2 = none ∧
    assocLookup m (mgr.add_or_update m v (some pm)).1.modules = some ⟨v, some pm, []⟩ := by
  have hpm1 : assocLookup pm (mgr.modules ++ [(m, ⟨v, some pm, []⟩)]) = none := by
    rw [assocLookup_append_right pm _ _ h2]
    simp [assocLookup, Ne.symm h3]
  have hm1 : assocLookup m (mgr.modules ++ [(m, ⟨v, some pm, []⟩)])
      = some ⟨v, some pm, []⟩ := by
    rw [assocLookup_append_right m _ _ h1]
    simp [assocLookup]
  have hadd : mgr.add_module m v (some pm)
      = (⟨mgr.modules ++ [(m, ⟨v, some pm, []⟩)], mgr.core_module, mgr.root_module⟩,
          some TreeError.missingParent) := by
    simp [ModuleTreeManager.add_module, h1, hpm1]
  have hupd : ∀ w : ModValue,
      (ModuleTreeManager.update_module
          ⟨mgr.modules ++ [(m, ⟨v, some pm, []⟩)], mgr.core_module, mgr.root_module⟩
          m w (some pm)).2 = none := by
    intro w
    simp [ModuleTreeManager.update_module, hm1]
  refine ⟨by rw [hadd], by rw [hadd]; exact hm1, by rw [hadd]; exact hupd v2, ?_, ?_⟩
  · unfold ModuleTreeManager.add_or_update
    rw [hadd]
    simp [TreeError.isValueError, hupd v]
  · unfold ModuleTreeManager.add_or_update
    rw [hadd]
    simp only [TreeError.isValueError, if_pos]
    simp only [ModuleTreeManager.update_module, hm1, Option.elim]
    exact assocLookup_assocReplace_self m _ _ _ hm1

/-- Witness for C9: the scenario at concrete inputs — on the empty tree,
`add_module(1, v, parent=2)` fails yet stores module 1, and `add_or_update`
completes by updating that leftover node. -/
theorem c9_add_module_not_atomic_witness :
    (ModuleTreeManager.add_module ⟨[], none, none⟩ 1 ⟨1, true, [], []⟩ (some 2)).2
        = some TreeError.missingParent ∧
      assocLookup 1 (ModuleTreeManager.add_module ⟨[], none, none⟩ 1 ⟨1, true, [], []⟩
          (some 2)).1.modules = some ⟨⟨1, true, [], []⟩, some 2, []⟩ ∧
      ((ModuleTreeManager.add_module ⟨[], none, none⟩ 1 ⟨1, true, [], []⟩
          (some 2)).1.update_module 1 ⟨7, true, [], []⟩ (some 2)).2 = none ∧
      (ModuleTreeManager.add_or_update ⟨[], none, none⟩ 1 ⟨1, true, [], []⟩ (some 2)).2
        = none ∧
      assocLookup 1 (ModuleTreeManager.add_or_update ⟨[], none, none⟩ 1 ⟨1, true, [], []⟩
          (some 2)).1.modules = some ⟨⟨1, true, [], []⟩, some 2, []⟩ :=
  c9_add_module_not_atomic ⟨[], none, none⟩ 1 2 ⟨1, true, [], []⟩ ⟨7, true, [], []⟩
    rfl rfl (by decide)

/-! ### C4 — depth-first, insertion-ordered traversal of `search_module_tree` -/

/-- Root module value (identity 0) of the C4 demo tree. -/
def vRoot : ModValue := ⟨0, true, [], []⟩

/-- Module value A (identity 1) of the C4 demo tree. -/
def vA : ModValue := ⟨1, true, [], []⟩

/-- Module value B (identity 2) of the C4 demo tree. -/
def vB : ModValue := ⟨2, true, [], []⟩

/-- Module value C (identity 3) of the C4 demo tree. -/
def vC : ModValue := ⟨3, true, [], []⟩

/-- The C4 demo tree `root → {A, B}`, `A → {C}`, built through `add_module`
in insertion order root, A, B, C. -/
def demoTree : ModuleTreeManager :=
  (((((⟨[], none, none⟩ : ModuleTreeManager).add_module 0 vRoot none).1.add_module
      1 vA (some 0)).1.add_module 2 vB (some 0)).1.add_module 3 vC (some 1)).1

/-- The stored node of the root module in `demoTree`: children A (1) then
B (2), in insertion order. -/
def rootData : TreeData := ⟨vRoot, none, [1, 2]⟩

/-- The stored node of module A in `demoTree`: child C (3). -/
def aData : TreeData := ⟨vA, some 0, [3]⟩

/-- The stored node of module B in `demoTree`. -/
def bData : TreeData := ⟨vB, some 0, []⟩

/-- The stored node of module C in `demoTree`. -/
def cData : TreeData := ⟨vC, some 1, []⟩

/-- Spec-side join of child subsequences: for each child identifier, the visit
sequence `g` of the child's subtree (nothing for a missing child), concatenated
in insertion order. -/
def childrenSeqG (mgr : ModuleTreeManager)
    (g : Option TreeData → List (Option TreeData)) (cids : List Nat) :
    List (Option TreeData) :=
  (cids.map (fun cid =>
    match assocLookup cid mgr.modules with
    | none => []
    | some child => g (some child))).flatten

/-- Spec-side definition, from the spec's words: the depth-first visit sequence
of the subtree below a start item — each parent first, then its children's
subtrees in insertion order — with the same recursion budget as `dfs`. Missing
children contribute nothing; the `None` sentinel is its own one-element
sequence. -/
def preorderSeq (mgr : ModuleTreeManager) :
    Nat → Option TreeData → List (Option TreeData)
  | 0, _ => []
  | _ + 1, none => [none]
  | fuel + 1, some node =>
    some node :: childrenSeqG mgr (fun c => preorderSeq mgr fuel c) node.dependencies

/-- Spec-side: the full visit sequence of a `search_module_tree` call — the
preorder sequences of the start items `find_module(filter_item)` yields,
concatenated in order. -/
def searchSeq (mgr : ModuleTreeManager) (filter_item : TreeData → Bool)
    (fuel : Nat) : List (Option TreeData) :=
  ((mgr.find_module filter_item).map (preorderSeq mgr fuel)).flatten

/-- Spec-side: the prefix of a visit sequence that is consulted before the
search stops — everything up to and including the first match that is an
actual node (a match on the `None` sentinel is returned as a falsy `None`, so
scanning continues past it). -/
def visitedUntil (q : Option TreeData → Bool) :
    List (Option TreeData) → List (Option TreeData)
  | [] => []
  | d :: rest =>
    if q d then
      match d with
      | some _ => [d]
      | none => d :: visitedUntil q rest
    else d :: visitedUntil q rest

/-- Spec-side: the first element of a visit sequence that satisfies the
predicate and is an actual node (Python treats a returned `None` as falsy and
keeps searching). -/
def pyFirstMatch (q : Option TreeData → Bool) :
    List (Option TreeData) → Option TreeData
  | [] => none
  | d :: rest =>
    if q d then
      match d with
      | some n => some n
      | none => pyFirstMatch q rest
    else pyFirstMatch q rest

theorem visitedUntil_all_false (q : Option TreeData → Bool)
    (l : List (Option TreeData)) (h : ∀ d ∈ l, q d = false) :
    visitedUntil q l = l := by
  induction l with
  | nil => rfl
  | cons d rest ih =>
    have hd : q d = false := h d (List.mem_cons_self d rest)
    simp only [visitedUntil, hd, Bool.false_eq_true, if_false, List.cons.injEq, true_and]
    exact ih (fun x hx => h x (List.mem_cons_of_mem d hx))

theorem pyFirstMatch_all_false (q : Option TreeData → Bool)
    (l : List (Option TreeData)) (h : ∀ d ∈ l, q d = false) :
    pyFirstMatch q l = none := by
  induction l with
  | nil => rfl
  | cons d rest ih =>
    have hd : q d = false := h d (List.mem_cons_self d rest)
    simp only [pyFirstMatch, hd, Bool.false_eq_true, if_false]
    exact ih (fun x hx => h x (List.mem_cons_of_mem d hx))

theorem visitedUntil_append_false (q : Option TreeData → Bool)
    (l1 l2 : List (Option TreeData)) (h : ∀ d ∈ l1, q d = false) :
    visitedUntil q (l1 ++ l2) = l1 ++ visitedUntil q l2 := by
  induction l1 with
  | nil => simp
  | cons d rest ih =>
    have hd : q d = false := h d (List.mem_cons_self d rest)
    simp only [List.cons_append, visitedUntil, hd, Bool.false_eq_true, if_false,
      List.cons.injEq, true_and]
    exact ih (fun x hx => h x (List.mem_cons_of_mem d hx))

theorem pyFirstMatch_append_false (q : Option TreeData → Bool)
    (l1 l2 : List (Option TreeData)) (h : ∀ d ∈ l1, q d = false) :
    pyFirstMatch q (l1 ++ l2) = pyFirstMatch q l2 := by
  induction l1 with
  | nil => simp
  | cons d rest ih =>
    have hd : q d = false := h d (List.mem_cons_self d rest)
    simp only [List.cons_append, pyFirstMatch, hd, Bool.false_eq_true, if_false]
    exact ih (fun x hx => h x (List.mem_cons_of_mem d hx))

theorem pyFirstMatch_append_some (q : Option TreeData → Bool)
    (l1 l2 : List (Option TreeData)) (r : TreeData)
    (h : pyFirstMatch q l1 = some r) :
    pyFirstMatch q (l1 ++ l2) = some r := by
  induction l1 with
  | nil => simp [pyFirstMatch] at h
  | cons d rest ih =>
    cases hq : q d with
    | true =>
      cases d with
      | some n =>
        simp only [pyFirstMatch, hq, if_true] at h
        simp only [List.cons_append, pyFirstMatch, hq, if_true]
        exact h
      | none =>
        simp only [pyFirstMatch, hq, if_true] at h
        simp only [List.cons_append, pyFirstMatch, hq, if_true]
        exact ih h
    | false =>
      simp only [pyFirstMatch, hq, Bool.false_eq_true, if_false] at h
      simp only [List.cons_append, pyFirstMatch, hq, Bool.false_eq_true, if_false]
      exact ih h

theorem visitedUntil_append_some (q : Option TreeData → Bool)
    (l1 l2 : List (Option TreeData)) (r : TreeData)
    (h : pyFirstMatch q l1 = some r) :
    visitedUntil q (l1 ++ l2) = visitedUntil q l1 := by
  induction l1 with
  | nil => simp [pyFirstMatch] at h
  | cons d rest ih =>
    cases hq : q d with
    | true =>
      cases d with
      | some n =>
        simp [visitedUntil, hq]
      | none =>
        simp only [pyFirstMatch, hq, if_true] at h
        simp only [List.cons_append, visitedUntil, hq, if_true, List.cons.injEq, true_and]
        exact ih h
    | false =>
      simp only [pyFirstMatch, hq, Bool.false_eq_true, if_false] at h
      simp only [List.cons_append, visitedUntil, hq, Bool.false_eq_true, if_false,
        List.cons.injEq, true_and]
      exact ih h

theorem foldl_dfsChildStep_error (mgr : ModuleTreeManager)
    (rec : Option TreeData → Except PyError (List (Option TreeData) × Option TreeData))
    (cids : List Nat) (e : PyError) :
    cids.foldl (dfsChildStep mgr rec) (Except.error e) = Except.error e := by
  induction cids with
  | nil => rfl
  | cons c rest ih => simpa [dfsChildStep] using ih

theorem foldl_dfsChildStep_found (mgr : ModuleTreeManager)
    (rec : Option TreeData → Except PyError (List (Option TreeData) × Option TreeData))
    (cids : List Nat) (t : List (Option TreeData)) (r : TreeData) :
    cids.foldl (dfsChildStep mgr rec) (Except.ok (t, some r)) = Except.ok (t, some r) := by
  induction cids with
  | nil => rfl
  | cons c rest ih => simpa [dfsChildStep] using ih

theorem foldl_searchStep_error (mgr : ModuleTreeManager)
    (p : Option TreeData → Except PyError Bool) (fuel : Nat)
    (items : List (Option TreeData)) (e : PyError) :
    items.foldl (searchStep mgr p fuel) (Except.error e) = Except.error e := by
  induction items with
  | nil => rfl
  | cons m rest ih => simpa [searchStep] using ih

theorem foldl_searchStep_found (mgr : ModuleTreeManager)
    (p : Option TreeData → Except PyError Bool) (fuel : Nat)
    (items : List (Option TreeData)) (t : List (Option TreeData)) (r : TreeData) :
    items.foldl (searchStep mgr p fuel) (Except.ok (t, some r)) = Except.ok (t, some r) := by
  induction items with
  | nil => rfl
  | cons m rest ih => simpa [searchStep] using ih

/-- The child loop of `dfs` realises the spec-side preorder of the children:
given that the recursive call `f` realises `g` on every node, a completed loop
has consulted exactly the concatenated child sequences up to the first match,
and carries the first match as its result. -/
theorem foldl_dfsChildStep_spec (mgr : ModuleTreeManager) (q : Option TreeData → Bool)
    (f : Option TreeData → Except PyError (List (Option TreeData) × Option TreeData))
    (g : Option TreeData → List (Option TreeData))
    (hf : ∀ (node : TreeData) (trace : List (Option TreeData)) (res : Option TreeData),
      f (some node) = Except.ok (trace, res) →
      trace = visitedUntil q (g (some node)) ∧
      res = pyFirstMatch q (g (some node)) ∧
      (res = none → ∀ d ∈ g (some node), q d = false)) :
    ∀ (cids : List Nat) (t0 trace : List (Option TreeData)) (res : Option TreeData),
      cids.foldl (dfsChildStep mgr f) (Except.ok (t0, none)) = Except.ok (trace, res) →
      trace = t0 ++ visitedUntil q (childrenSeqG mgr g cids) ∧
      res = pyFirstMatch q (childrenSeqG mgr g cids) ∧
      (res = none → ∀ d ∈ childrenSeqG mgr g cids, q d = false) := by
  intro cids
  induction cids with
  | nil =>
    intro t0 trace res h
    simp only [List.foldl_nil] at h
    have h1 : t0 = trace ∧ (none : Option TreeData) = res := by simpa using h
    obtain ⟨rfl, rfl⟩ := h1
    refine ⟨by simp [childrenSeqG, visitedUntil], by simp [childrenSeqG, pyFirstMatch], ?_⟩
    intro _ d hd
    simp [childrenSeqG] at hd
  | cons c rest ih =>
    intro t0 trace res h
    rw [List.foldl_cons] at h
    cases hlk : assocLookup c mgr.modules with
    | none =>
      rw [show dfsChildStep mgr f (Except.ok (t0, none)) c = Except.ok (t0, none) from by
        simp [dfsChildStep, hlk]] at h
      have hcs : childrenSeqG mgr g (c :: rest) = childrenSeqG mgr g rest := by
        simp [childrenSeqG, hlk]
      rw [hcs]
      exact ih t0 trace res h
    | some child =>
      have hcs : childrenSeqG mgr g (c :: rest)
          = g (some child) ++ childrenSeqG mgr g rest := by
        simp [childrenSeqG, hlk]
      cases hdf : f (some child) with
      | error e =>
        rw [show dfsChildStep mgr f (Except.ok (t0, none)) c = Except.error e from by
          simp [dfsChildStep, hlk, hdf]] at h
        rw [foldl_dfsChildStep_error] at h
        exact absurd h (by simp)
      | ok tr =>
        obtain ⟨t1, r1⟩ := tr
        obtain ⟨ht1, hr1, hall1⟩ := hf child t1 r1 hdf
        cases r1 with
        | some r =>
          rw [show dfsChildStep mgr f (Except.ok (t0, none)) c
              = Except.ok (t0 ++ t1, some r) from by simp [dfsChildStep, hlk, hdf]] at h
          rw [foldl_dfsChildStep_found] at h
          have h1 : t0 ++ t1 = trace ∧ (some r : Option TreeData) = res := by simpa using h
          obtain ⟨rfl, rfl⟩ := h1
          have hfm : pyFirstMatch q (g (some child)) = some r := hr1.symm
          refine ⟨?_, ?_, ?_⟩
          · rw [hcs, visitedUntil_append_some q _ _ r hfm, ht1]
          · rw [hcs, pyFirstMatch_append_some q _ _ r hfm]
          · intro hc
            cases hc
        | none =>
          have hallc := hall1 rfl
          have ht1e : t1 = g (some child) := by
            rw [ht1, visitedUntil_all_false q _ hallc]
          rw [show dfsChildStep mgr f (Except.ok (t0, none)) c
              = Except.ok (t0 ++ t1, none) from by simp [dfsChildStep, hlk, hdf]] at h
          obtain ⟨htr, hres, hallr⟩ := ih (t0 ++ t1) trace res h
          subst ht1e
          refine ⟨?_, ?_, ?_⟩
          · rw [htr, hcs, visitedUntil_append_false q _ _ hallc, List.append_assoc]
          · rw [hres, hcs, pyFirstMatch_append_false q _ _ hallc]
          · intro h0
            rw [hcs]
            intro d hd
            rcases List.mem_append.mp hd with hd1 | hd2
            · exact hallc d hd1
            · exact hallr h0 d hd2

/-- `dfs` from an actual node, with a non-raising predicate, realises the
spec-side preorder: whenever it returns, its visit trace is the preorder
sequence of the subtree truncated at the first match, its result is the first
matching node in that order, and a `None` result means no visited node
matched. -/
theorem dfs_ok_spec (mgr : ModuleTreeManager) (q : Option TreeData → Bool) :
    ∀ (fuel : Nat) (node : TreeData) (trace : List (Option TreeData))
      (res : Option TreeData),
      dfs mgr (fun d => Except.ok (q d)) fuel (some node) = Except.ok (trace, res) →
      trace = visitedUntil q (preorderSeq mgr fuel (some node)) ∧
      res = pyFirstMatch q (preorderSeq mgr fuel (some node)) ∧
      (res = none → ∀ d ∈ preorderSeq mgr fuel (some node), q d = false) := by
  intro fuel
  induction fuel with
  | zero =>
    intro node trace res h
    simp [dfs] at h
  | succ fuel ih =>
    intro node trace res h
    have hps : preorderSeq mgr (fuel + 1) (some node)
        = some node :: childrenSeqG mgr (fun c => preorderSeq mgr fuel c)
            node.dependencies := rfl
    cases hq : q (some node) with
    | true =>
      rw [show dfs mgr (fun d => Except.ok (q d)) (fuel + 1) (some node)
          = Except.ok ([some node], some node) from by simp [dfs, hq]] at h
      have h1 : [some node] = trace ∧ (some node : Option TreeData) = res := by
        simpa using h
      obtain ⟨rfl, rfl⟩ := h1
      refine ⟨?_, ?_, ?_⟩
      · rw [hps]
        simp [visitedUntil, hq]
      · rw [hps]
        simp [pyFirstMatch, hq]
      · intro hc
        cases hc
    | false =>
      rw [show dfs mgr (fun d => Except.ok (q d)) (fuel + 1) (some node)
          = node.dependencies.foldl
              (dfsChildStep mgr (fun c => dfs mgr (fun d => Except.ok (q d)) fuel c))
              (Except.ok ([some node], none)) from by simp [dfs, hq]] at h
      obtain ⟨htr, hres, hall⟩ := foldl_dfsChildStep_spec mgr q
        (fun c => dfs mgr (fun d => Except.ok (q d)) fuel c)
        (fun c => preorderSeq mgr fuel c)
        (fun nd tr rs hh => ih nd tr rs hh)
        node.dependencies [some node] trace res h
      refine ⟨?_, ?_, ?_⟩
      · rw [htr, hps]
        simp [visitedUntil, hq]
      · rw [hres, hps]
        simp [pyFirstMatch, hq]
      · intro h0
        rw [hps]
        intro d hd
        rcases List.mem_cons.mp hd with rfl | hd2
        · exact hq
        · exact hall h0 d hd2

/-- The outer loop of `search_module_tree` over actual start nodes realises the
concatenated preorder sequences up to the first match. -/
theorem foldl_searchStep_spec (mgr : ModuleTreeManager) (q : Option TreeData → Bool)
    (fuel : Nat) :
    ∀ (ms : List TreeData) (t0 trace : List (Option TreeData)) (res : Option TreeData),
      (ms.map some).foldl (searchStep mgr (fun d => Except.ok (q d)) fuel)
          (Except.ok (t0, none)) = Except.ok (trace, res) →
      trace = t0 ++ visitedUntil q (((ms.map some).map (preorderSeq mgr fuel)).flatten) ∧
      res = pyFirstMatch q (((ms.map some).map (preorderSeq mgr fuel)).flatten) ∧
      (res = none → ∀ d ∈ ((ms.map some).map (preorderSeq mgr fuel)).flatten, q d = false) := by
  intro ms
  induction ms with
  | nil =>
    intro t0 trace res h
    simp only [List.map_nil, List.foldl_nil] at h
    have h1 : t0 = trace ∧ (none : Option TreeData) = res := by simpa using h
    obtain ⟨rfl, rfl⟩ := h1
    refine ⟨by simp [visitedUntil], by simp [pyFirstMatch], ?_⟩
    intro _ d hd
    simp at hd
  | cons m rest ih =>
    intro t0 trace res h
    simp only [List.map_cons, List.foldl_cons] at h
    have hj : ((some m :: rest.map some).map (preorderSeq mgr fuel)).flatten
        = preorderSeq mgr fuel (some m)
            ++ ((rest.map some).map (preorderSeq mgr fuel)).flatten := by
      simp
    rw [show ((m :: rest).map some) = some m :: rest.map some from rfl]
    cases hdf : dfs mgr (fun d => Except.ok (q d)) fuel (some m) with
    | error e =>
      rw [show searchStep mgr (fun d => Except.ok (q d)) fuel
          (Except.ok (t0, none)) (some m) = Except.error e from by
        simp [searchStep, hdf]] at h
      rw [foldl_searchStep_error] at h
      exact absurd h (by simp)
    | ok tr =>
      obtain ⟨t1, r1⟩ := tr
      obtain ⟨ht1, hr1, hall1⟩ := dfs_ok_spec mgr q fuel m t1 r1 hdf
      cases r1 with
      | some r =>
        rw [show searchStep mgr (fun d => Except.ok (q d)) fuel
            (Except.ok (t0, none)) (some m) = Except.ok (t0 ++ t1, some r) from by
          simp [searchStep, hdf]] at h
        rw [foldl_searchStep_found] at h
        have h1 : t0 ++ t1 = trace ∧ (some r : Option TreeData) = res := by simpa using h
        obtain ⟨rfl, rfl⟩ := h1
        have hfm : pyFirstMatch q (preorderSeq mgr fuel (some m)) = some r := hr1.symm
        refine ⟨?_, ?_, ?_⟩
        · rw [hj, visitedUntil_append_some q _ _ r hfm, ht1]
        · rw [hj, pyFirstMatch_append_some q _ _ r hfm]
        · intro hc
          cases hc
      | none =>
        have hallm := hall1 rfl
        have ht1e : t1 = preorderSeq mgr fuel (some m) := by
          rw [ht1, visitedUntil_all_false q _ hallm]
        rw [show searchStep mgr (fun d => Except.ok (q d)) fuel
            (Except.ok (t0, none)) (some m) = Except.ok (t0 ++ t1, none) from by
          simp [searchStep, hdf]] at h
        obtain ⟨htr, hres, hallr⟩ := ih (t0 ++ t1) trace res h
        subst ht1e
        refine ⟨?_, ?_, ?_⟩
        · rw [htr, hj, visitedUntil_append_false q _ _ hallm, List.append_assoc]
        · rw [hres, hj, pyFirstMatch_append_false q _ _ hallm]
        · intro h0
          rw [hj]
          intro d hd
          rcases List.mem_append.mp hd with hd1 | hd2
          · exact hallm d hd1
          · exact hallr h0 d hd2

/-- Whenever `search_module_tree` with a non-raising predicate returns, its
visit trace is the spec-side preorder sequence truncated at the first match,
and its result is the first matching node in that order. -/
theorem search_module_tree_ok_spec (mgr : ModuleTreeManager)
    (filter_item : TreeData → Bool) (q : Option TreeData → Bool) (fuel : Nat)
    (trace : List (Option TreeData)) (res : Option TreeData)
    (hok : mgr.search_module_tree filter_item (fun d => Except.ok (q d)) fuel
      = Except.ok (trace, res)) :
    trace = visitedUntil q (searchSeq mgr filter_item fuel) ∧
    res = pyFirstMatch q (searchSeq mgr filter_item fuel) := by
  by_cases hfm : (mgr.modules.map Prod.snd).filter filter_item = []
  · have hfm2 : mgr.find_module filter_item = [none] := by
      rw [find_module_eq]
      simp [hfm]
    have hseq : searchSeq mgr filter_item fuel = preorderSeq mgr fuel none := by
      simp [searchSeq, hfm2]
    cases fuel with
    | zero =>
      rw [search_module_tree_sentinel mgr filter_item _ 0 hfm2] at hok
      simp [dfs] at hok
    | succ k =>
      rw [search_module_tree_sentinel mgr filter_item _ (k + 1) hfm2, dfs_none] at hok
      cases hq : q none with
      | false =>
        simp [hq] at hok
      | true =>
        simp only [hq] at hok
        have h1 : [(none : Option TreeData)] = trace
            ∧ (none : Option TreeData) = res := by simpa using hok
        obtain ⟨rfl, rfl⟩ := h1
        rw [hseq]
        constructor
        · simp [preorderSeq, visitedUntil, hq]
        · simp [preorderSeq, pyFirstMatch, hq]
  · have hfm2 : mgr.find_module filter_item
        = ((mgr.modules.map Prod.snd).filter filter_item).map some := by
      rw [find_module_eq]
      simp [hfm]
    unfold ModuleTreeManager.search_module_tree at hok
    rw [hfm2] at hok
    obtain ⟨htr, hres, _⟩ := foldl_searchStep_spec mgr q fuel
      ((mgr.modules.map Prod.snd).filter filter_item) [] trace res hok
    have hseq : searchSeq mgr filter_item fuel
        = ((((mgr.modules.map Prod.snd).filter filter_item).map some).map
            (preorderSeq mgr fuel)).flatten := by
      simp [searchSeq, hfm2]
    rw [hseq]
    constructor
    · rw [htr]
      simp
    · rw [hres]

/-- C4: (general part) for every tree, every `filter_item`, every non-raising
`find_predicate`, and every recursion budget, whenever `search_module_tree`
returns, the sequence of items on which `find_predicate` was consulted is
exactly the spec-side depth-first, parent-first, insertion-ordered visit
sequence `searchSeq` truncated at the first match, and the returned node is the
first node in that order satisfying the predicate; (scenario part) on the tree
`root → {A, B}`, `A → {C}`, for every predicate matched exactly by C, the
search visits root, then A, then C, returns C as the first match, and never
visits B. -/
theorem c4_search_module_tree_order :
    (∀ (mgr : ModuleTreeManager) (filter_item : TreeData → Bool)
        (p : Option TreeData → Except PyError Bool) (q : Option TreeData → Bool)
        (fuel : Nat) (trace : List (Option TreeData)) (res : Option TreeData),
      (∀ d, p d = Except.ok (q d)) →
      mgr.search_module_tree filter_item p fuel = Except.ok (trace, res) →
      trace = visitedUntil q (searchSeq mgr filter_item fuel) ∧
      res = pyFirstMatch q (searchSeq mgr filter_item fuel)) ∧
    (∀ p : Option TreeData → Except PyError Bool,
      (∀ d, p d = Except.ok (decide (d = some cData))) →
      demoTree.search_module_tree (fun d => d.parent.isNone) p 10
          = Except.ok ([some rootData, some aData, some cData], some cData) ∧
      some bData ∉ [some rootData, some aData, some cData]) := by
  constructor
  · intro mgr filter_item p q fuel trace res hp hok
    have hfun : p = fun d => Except.ok (q d) := funext hp
    subst hfun
    exact search_module_tree_ok_spec mgr filter_item q fuel trace res hok
  · intro p hp
    have hfun : p = fun d => Except.ok (decide (d = some cData)) := funext hp
    subst hfun
    constructor
    · decide
    · decide

/-- Witness for C4: the general part applied to the concrete demo tree, its
root filter and the decidable predicate matching exactly C (with the returned
trace and result evaluated), and the scenario part at the same predicate. -/
theorem c4_search_module_tree_order_witness :
    ([some rootData, some aData, some cData]
        = visitedUntil (fun d => decide (d = some cData))
            (searchSeq demoTree (fun d => d.parent.isNone) 10) ∧
      (some cData : Option TreeData)
        = pyFirstMatch (fun d => decide (d = some cData))
            (searchSeq demoTree (fun d => d.parent.isNone) 10)) ∧
    demoTree.search_module_tree (fun d => d.parent.isNone)
        (fun d => Except.ok (decide (d = some cData))) 10
      = Except.ok ([some rootData, some aData, some cData], some cData) :=
  ⟨c4_search_module_tree_order.1 demoTree (fun d => d.parent.isNone)
      (fun d => Except.ok (decide (d = some cData)))
      (fun d => decide (d = some cData)) 10
      [some rootData, some aData, some cData] (some cData)
      (fun _ => rfl) (by decide),
   (c4_search_module_tree_order.2 (fun d => Except.ok (decide (d = some cData)))
      (fun _ => rfl)).1⟩

/-! ### C6 — `add_provider` readiness gating -/

/-- C6: `add_provider(module_id, provider, export)` fails with
`UnknownModuleError` when the module is absent; when present and ready it
writes the provider through to the module's live provider set; when present but
not ready it is a no-op returning normally. -/
theorem c6_add_provider_readiness (mgr : ModuleTreeManager) (m provider : Nat)
    (ex : Bool) (d : TreeData) :
    (assocLookup m mgr.modules = none →
      mgr.add_provider m provider ex = (mgr, some TreeError.unknownModule)) ∧
    (assocLookup m mgr.modules = some d → d.value.is_ready = true →
      (mgr.add_provider m provider ex).2 = none ∧
      (assocLookup m (mgr.add_provider m provider ex).1.modules).map
          (fun x => x.value.providers) = some (d.value.providers ++ [provider])) ∧
    (assocLookup m mgr.modules = some d → d.value.is_ready = false →
      mgr.add_provider m provider ex = (mgr, none)) := by
  refine ⟨?_, ?_, ?_⟩
  · intro h
    simp [ModuleTreeManager.add_provider, h]
  · intro h hr
    have hrep := assocLookup_assocReplace_self m
      (⟨d.value.add_provider provider ex, d.parent, d.dependencies⟩ : TreeData)
      mgr.modules d h
    have hstep : mgr.add_provider m provider ex =
        (⟨assocReplace m ⟨d.value.add_provider provider ex, d.parent, d.dependencies⟩
            mgr.modules, mgr.core_module, mgr.root_module⟩, none) := by
      simp [ModuleTreeManager.add_provider, h, hr]
    rw [hstep]
    refine ⟨rfl, ?_⟩
    rw [show (⟨assocReplace m ⟨d.value.add_provider provider ex, d.parent, d.dependencies⟩
          mgr.modules, mgr.core_module, mgr.root_module⟩ : ModuleTreeManager).modules
        = assocReplace m ⟨d.value.add_provider provider ex, d.parent, d.dependencies⟩
            mgr.modules from rfl, hrep]
    simp [ModValue.add_provider]
  · intro h hr
    simp [ModuleTreeManager.add_provider, h, hr]

/-- Witness for C6: the three branches at concrete inputs — an absent module, a
ready module receiving the provider, and a non-ready module left untouched. -/
theorem c6_add_provider_readiness_witness :
    ModuleTreeManager.add_provider ⟨[], none, none⟩ 1 7 false
      = (⟨[], none, none⟩, some TreeError.unknownModule) ∧
    (assocLookup 1 (ModuleTreeManager.add_provider
        ⟨[(1, ⟨⟨1, true, [9], []⟩, none, []⟩)], none, some 1⟩ 1 7 false).1.modules).map
        (fun x => x.value.providers) = some [9, 7] ∧
    ModuleTreeManager.add_provider ⟨[(1, ⟨⟨1, false, [], []⟩, none, []⟩)], none, some 1⟩
        1 7 false
      = (⟨[(1, ⟨⟨1, false, [], []⟩, none, []⟩)], none, some 1⟩, none) :=
  ⟨(c6_add_provider_readiness ⟨[], none, none⟩ 1 7 false
      ⟨⟨0, true, [], []⟩, none, []⟩).1 rfl,
   ((c6_add_provider_readiness ⟨[(1, ⟨⟨1, true, [9], []⟩, none, []⟩)], none, some 1⟩
      1 7 false ⟨⟨1, true, [9], []⟩, none, []⟩).2.1 rfl rfl).2,
   (c6_add_provider_readiness ⟨[(1, ⟨⟨1, false, [], []⟩, none, []⟩)], none, some 1⟩
      1 7 false ⟨⟨1, false, [], []⟩, none, []⟩).2.2 rfl rfl⟩

/-! ### C7 — `ExecutionContextFactory.create_context` boundary guard -/

/-- C7: `create_context` fails with `ContextUnavailableError`
(`ServiceUnavailable`) when no resolution boundary has been published for the
current concurrency unit (the request-scoped context variable is unset or holds
a falsy/empty value); when a boundary is published it returns the
`ExecutionContext` built from the given scope, receive, send and operation. -/
theorem c7_create_context_boundary_guard (fac : ExecutionContextFactory)
    (op : RouteOperationBase) (scope receive send : Nat) (args : Option PyVal) :
    (truthyOpt args = false →
      fac.create_context op scope receive send args
        = Except.error CtxError.serviceUnavailable) ∧
    (truthyOpt args = true →
      fac.create_context op scope receive send args
        = Except.ok ⟨scope, receive, send, op.endpoint, fac.reflector⟩) := by
  constructor
  · intro h
    simp [ExecutionContextFactory.create_context, h]
  · intro h
    simp [ExecutionContextFactory.create_context, h]

/-- Witness for C7: an unset context variable fails; a published boundary
yields the built context. -/
theorem c7_create_context_boundary_guard_witness :
    ExecutionContextFactory.create_context ⟨9⟩ ⟨4⟩ 1 2 3 none
      = Except.error CtxError.serviceUnavailable ∧
    ExecutionContextFactory.create_context ⟨9⟩ ⟨4⟩ 1 2 3 (some (PyVal.obj 8))
      = Except.ok ⟨1, 2, 3, 4, 9⟩ :=
  ⟨(c7_create_context_boundary_guard ⟨9⟩ ⟨4⟩ 1 2 3 none).1 rfl,
   (c7_create_context_boundary_guard ⟨9⟩ ⟨4⟩ 1 2 3 (some (PyVal.obj 8))).2 rfl⟩

/-! ### C8 — `find_module` yields matches, or a single `None` sentinel -/

/-- C8: `find_module(predicate)` yields exactly the stored nodes satisfying the
predicate (in insertion order), and when no stored node satisfies it, the
produced sequence is the single `None` sentinel — not an empty sequence. -/
theorem c8_find_module_matches_or_sentinel (mgr : ModuleTreeManager)
    (p : TreeData → Bool) :
    mgr.find_module p =
      if (mgr.modules.map Prod.snd).filter p = [] then [none]
      else ((mgr.modules.map Prod.snd).filter p).map some :=
  find_module_eq mgr p

/-! ### C10 — the `None` sentinel reaches `find_predicate` -/

/-- If no stored node satisfies the predicate, `find_module` yields exactly the
sentinel. -/
theorem find_module_no_match (mgr : ModuleTreeManager) (p : TreeData → Bool)
    (hf : ∀ kv ∈ mgr.modules, p kv.2 = false) :
    mgr.find_module p = [none] := by
  have hnil : (mgr.modules.map Prod.snd).filter p = [] := by
    rw [List.filter_eq_nil_iff]
    intro a ha
    obtain ⟨kv, hkv, rfl⟩ := List.mem_map.mp ha
    simp [hf kv hkv]
  rw [find_module_eq]
  simp [hnil]

/-- C10 counterexample: on the empty tree (so no stored node satisfies
`filter_item`), with a `find_predicate` that *is* defined on `None` and returns
`False` there, `search_module_tree` is not total — it fails with an
`AttributeError` from `None.dependencies`, not by the predicate's own failure,
and it does not return `None`. -/
theorem c10_counterexample :
    ModuleTreeManager.search_module_tree ⟨[], none, none⟩ (fun _ => false)
        (fun _ => Except.ok false) 5
      = Except.error PyError.attributeError := by
  decide

/-- C10 (amended): when no stored node satisfies `filter_item`,
`search_module_tree` never returns without consulting `find_predicate` on the
`None` sentinel yielded by `find_module`: a failure of the predicate on `None`
propagates; a truthy answer on `None` makes the call return `None` (with the
sentinel as the only visited item); but a falsy answer on `None` fails with an
`AttributeError` from the sentinel's `dependencies` attribute access — the call
is total only for predicates that are defined *and truthy* on `None`. -/
theorem c10_sentinel_reaches_predicate (mgr : ModuleTreeManager)
    (filter_item : TreeData → Bool)
    (p : Option TreeData → Except PyError Bool) (fuel : Nat)
    (hf : ∀ kv ∈ mgr.modules, filter_item kv.2 = false) :
    (∀ e, p none = Except.error e →
      mgr.search_module_tree filter_item p (fuel + 1) = Except.error e) ∧
    (p none = Except.ok true →
      mgr.search_module_tree filter_item p (fuel + 1) = Except.ok ([none], none)) ∧
    (p none = Except.ok false →
      mgr.search_module_tree filter_item p (fuel + 1)
        = Except.error PyError.attributeError) := by
  have hfm := find_module_no_match mgr filter_item hf
  have hs := search_module_tree_sentinel mgr filter_item p (fuel + 1) hfm
  have hd := dfs_none mgr p fuel
  refine ⟨?_, ?_, ?_⟩
  · intro e he
    rw [hs, hd, he]
  · intro he
    rw [hs, hd, he]
  · intro he
    rw [hs, hd, he]

/-- Witness for C10: on the empty tree, a predicate failing on `None`
propagates its error, and a predicate truthy on `None` lets the search return
`None` after visiting only the sentinel. -/
theorem c10_sentinel_reaches_predicate_witness :
    ModuleTreeManager.search_module_tree ⟨[], none, none⟩ (fun _ => false)
        (fun _ => Except.error (PyError.userError 3)) 5
      = Except.error (PyError.userError 3) ∧
    ModuleTreeManager.search_module_tree ⟨[], none, none⟩ (fun _ => false)
        (fun _ => Except.ok true) 5
      = Except.ok ([none], none) :=
  ⟨(c10_sentinel_reaches_predicate ⟨[], none, none⟩ (fun _ => false)
      (fun _ => Except.error (PyError.userError 3)) 4
      (by intro kv hkv; cases hkv)).1 (PyError.userError 3) rfl,
   (c10_sentinel_reaches_predicate ⟨[], none, none⟩ (fun _ => false)
      (fun _ => Except.ok true) 4
      (by intro kv hkv; cases hkv)).2.1 rfl⟩

end Ellar
